import Mathlib

/-!
# Verification of `compass_simulator` (core.py)

Shallow embedding of `src/compass_simulator/core.py`: an orienteering-compass
physics simulator.  Every numeric quantity of the Python code (floats) is
modelled over a generic linear ordered field `K`; the transcendental
functions of Python's `math` module (`pi`, `cos`, `sin`, `sqrt`, `atan`)
are abstracted as a record `MathOps K` of uninterpreted operations, so all
definitions stay computable and theorems quantified over `MathOps` hold in
particular for the real functions over `ℝ`.  Concrete evaluations are done
at `K := ℚ`.

The `scipy.integrate.solve_ivp` call is external to the repository; its
returned object is modelled as an explicit input `IvpSol` (a success flag
and the rows `sol.t`, `sol.y[0]`, `sol.y[1]`), so that what the code does
*with* a solver result — which is what the claims are about — is embedded
faithfully: the run methods of `Dynamic` are functions from the engine, the
prior mutable state and the solver result to the new mutable state.
-/

namespace CompassSim

/-- The operations the Python code takes from `math`/`numpy`, abstracted:
`pi` is a constant of the field, the rest are uninterpreted functions.
Theorems quantify over `ops`, hence cover the genuine real functions. -/
structure MathOps (K : Type) where
  pi : K
  cos : K → K
  sin : K → K
  sqrt : K → K
  atan : K → K

variable {K : Type} [LinearOrderedField K]

/-- `MAG_PER = 1.25664e-06` (core.py line 23), the magnetic permeability. -/
def MAG_PER : K := 125664 / 100000000000

/-- `G = 9.81` (core.py line 24), gravity acceleration. -/
def gravG : K := 981 / 100

/-- The `Compass` class (core.py lines 28-88): `__init__` only stores its
keyword arguments, whose defaults (for the GEONAUTE R500) are reproduced
here as field defaults, written as exact rationals
(e.g. `0.032 = 32/1000`, `5.1e-09 = 51/10^10`). -/
structure Compass (K : Type) [LinearOrderedField K] where
  name : String := "R500"
  needle_length : K := 32 / 1000
  needle_width : K := 8 / 1000
  needle_thickness : K := 25 / 100000
  needle_disk_density : K := 1200
  disk_radius : K := 115 / 10000
  disk_thickness : K := 1 / 10000
  mag_rem : K := 13 / 10
  V : K := 6 / 100000000
  m : K := 45 / 100000
  magnet_mom_z : K := 51 / 10000000000
  x : K := -5 / 10000
  rho : K := 700
  viscosity : K := 108 / 100
  z_h : K := 4 / 1000
  z_b : K := 4 / 1000

/-- `Compass.__init__` (core.py lines 55-88): the body is nothing but the
fifteen attribute assignments, so construction can never raise; it is
embedded as an `Except`-valued constructor that always returns `.ok` with
the arguments stored verbatim.  (The error channel `Except String` is
where a raised `InvalidParameterError` would live — none exists in the
code.) -/
def compassInit (name : String)
    (needle_length needle_width needle_thickness needle_disk_density
      disk_radius disk_thickness mag_rem V m magnet_mom_z x rho viscosity
      z_h z_b : K) : Except String (Compass K) :=
  .ok ⟨name, needle_length, needle_width, needle_thickness,
    needle_disk_density, disk_radius, disk_thickness, mag_rem, V, m,
    magnet_mom_z, x, rho, viscosity, z_h, z_b⟩

/-- `Compass.mom_z` (core.py lines 90-105): moment of inertia of the
needle assembly about the z axis.  `pi_` stands for `math.pi`. -/
def Compass.mom_z (pi_ : K) (c : Compass K) : K :=
  let disk_mom := pi_ * c.disk_radius ^ 4 * c.disk_thickness *
    c.needle_disk_density / 2
  let needle_mom := c.needle_length * c.needle_width *
    c.needle_thickness * c.needle_disk_density *
    (c.needle_length ^ 2 + c.needle_width ^ 2) / 12
  disk_mom + needle_mom + c.magnet_mom_z + c.m * c.x ^ 2

/-- `Compass.visc_coef` (core.py lines 107-118): viscous coefficient for
the friction between the liquid and the disk plus needle. -/
def Compass.visc_coef (pi_ : K) (c : Compass K) : K :=
  c.viscosity * (1 / c.z_h + 1 / c.z_b) * (pi_ *
    c.disk_radius ^ 4 / 2 +
    (c.needle_length ^ 3 / 8 - c.disk_radius ^ 3) * c.needle_width / 3 +
    (c.needle_length / 2 - c.disk_radius) * c.needle_width ^ 3 / 12)

/-- The attribute lookup `comp.visc` used by `Dynamic.amplification` and
`Dynamic.phase` (core.py lines 302-304 and 311-312).  `Compass.__init__`
assigns exactly the attributes listed in the `Compass` structure above and
no method of the class ever assigns a `visc` attribute, so in Python this
lookup raises `AttributeError` on every instance; it is embedded as the
always-absent optional field. -/
def Compass.visc (_c : Compass K) : Option K := none

/-- The `MagneticField` class (core.py lines 121-143), defaults for Lille
(`intensity = 4.8699e-5`, `i_deg = 65.822`). -/
structure MagneticField (K : Type) [LinearOrderedField K] where
  name : String := "Lille"
  lat : K := 506333 / 10000
  lon : K := 30667 / 10000
  int : K := 48699 / 1000000000
  i_deg : K := 65822 / 1000

/-- `MagneticField.i` (core.py lines 146-151): `math.radians(self.i_deg)`,
i.e. `i_deg * pi / 180`. -/
def MagneticField.i (ops : MathOps K) (fld : MagneticField K) : K :=
  fld.i_deg * ops.pi / 180

/-- The immutable parameters of the `Dynamic` class (core.py lines
223-246) with the defaults of `Dynamic.__init__`
(`t_int = 0.01`, `Y = 0.093`, `tho_lim = 5`, fit coefficients 1). -/
structure Dynamic (K : Type) [LinearOrderedField K] where
  comp : Compass K
  mg_fld : MagneticField K
  alpha_init_deg : K := 90
  tf_rap : K := 3
  tf_stab : K := 5
  t_int : K := 1 / 100
  Y : K := 93 / 1000
  f : K := 70
  exp_coef_mg : K := 1
  exp_coef_visc : K := 1
  tho_lim : K := 5

/-- The mutable result attributes set by `Dynamic.__init__` (core.py lines
250-256): every one starts out `None`, embedded as `none`. -/
structure DynState (K : Type) where
  rapidity_results : Option (List K) := none
  stability_results : Option (List K) := none
  stability_results_s : Option (List K) := none
  rapidity_results_s : Option (List K) := none
  rapidity_results_exp : Option (List K × List K) := none
  tho : Option K := none
  stab_amp : Option K := none

/-- The state right after `Dynamic.__init__`: all result attributes `None`. -/
def DynState.start : DynState K :=
  ⟨none, none, none, none, none, none, none⟩

/-- `Dynamic.alpha_init` (core.py lines 258-260): `math.radians`. -/
def Dynamic.alpha_init (ops : MathOps K) (d : Dynamic K) : K :=
  d.alpha_init_deg * ops.pi / 180

/-- `Dynamic.w` (core.py lines 262-264): `math.pi * self.f / 60`. -/
def Dynamic.w (ops : MathOps K) (d : Dynamic K) : K :=
  ops.pi * d.f / 60

/-- `Dynamic.mg_trm` (core.py lines 268-275): magnetic term of the second
order equation. -/
def Dynamic.mg_trm (ops : MathOps K) (d : Dynamic K) : K :=
  -d.exp_coef_mg * d.comp.mag_rem * d.comp.V *
    d.mg_fld.int * ops.cos (d.mg_fld.i ops) / (MAG_PER *
    d.comp.mom_z ops.pi)

/-- `Dynamic.visc_trm` (core.py lines 277-285): viscous term of the second
order equation. -/
def Dynamic.visc_trm (ops : MathOps K) (d : Dynamic K) : K :=
  -d.exp_coef_visc * d.comp.visc_coef ops.pi / d.comp.mom_z ops.pi

/-- `Dynamic.ext_trm` (core.py lines 287-293): external excitation term of
the second order equation. -/
def Dynamic.ext_trm (ops : MathOps K) (d : Dynamic K) : K :=
  d.comp.m * d.comp.x * d.Y * (ops.pi * d.f / 30) ^ 2 /
    d.comp.mom_z ops.pi

/-- `Dynamic.amplification` (core.py lines 297-304): amplification factor
under the small angles hypothesis.  The body reads `self.comp.visc`, an
attribute that does not exist (see `Compass.visc`), so the value is
`none` — in Python, `AttributeError`. -/
def Dynamic.amplification (ops : MathOps K) (d : Dynamic K) : Option K :=
  d.comp.visc.map fun visc =>
    1 / ops.sqrt ((d.mg_trm ops * d.comp.mom_z ops.pi -
      d.comp.mom_z ops.pi * d.w ops ^ 2) ^ 2 + (visc * d.w ops) ^ 2)

/-- `Dynamic.phase` (core.py lines 306-312): phase offset under the small
angles hypothesis; reads the same missing `self.comp.visc` attribute. -/
def Dynamic.phase (ops : MathOps K) (d : Dynamic K) : Option K :=
  d.comp.visc.map fun visc =>
    ops.atan (visc * d.w ops / (d.comp.mom_z ops.pi * d.w ops ^ 2) -
      d.mg_trm ops * d.comp.mom_z ops.pi)

/-- The right-hand side `F` of `Dynamic.rapidity` (core.py lines 315-319):
state `x = (x[0], x[1]) = (angular velocity, angle)`. -/
def rapidityRHS (ops : MathOps K) (d : Dynamic K) (_t x0 x1 : K) : K × K :=
  (d.mg_trm ops * ops.sin x1 + d.visc_trm ops * x0, x0)

/-- The right-hand side `F` of `Dynamic.stability` (core.py lines 351-357). -/
def stabilityRHS (ops : MathOps K) (d : Dynamic K) (t x0 x1 : K) : K × K :=
  (d.mg_trm ops * ops.sin x1 + d.visc_trm ops * x0 +
    d.ext_trm ops * ops.cos x1 * ops.sin (ops.pi * d.f * t / 30), x0)

/-- What the code reads from the object returned by
`scipy.integrate.solve_ivp`: the success flag (`sol.status == 0`), the
time row `sol.t` and the two state rows `sol.y[0]`, `sol.y[1]`.  The
solver itself is outside the repository, so the result is an input of the
embedded run methods. -/
structure IvpSol (K : Type) where
  success : Bool
  t : List K
  y0 : List K
  y1 : List K

/-- `np.degrees` applied elementwise: `x * 180 / pi`. -/
def degrees (ops : MathOps K) (x : K) : K := x * 180 / ops.pi

/-- Whether the angle magnitude crosses the threshold `lim` between two
consecutive samples `a`, `b` — the condition of the `if` in
`Dynamic.calculate_tho` (core.py lines 396-399). -/
def crossing (lim a b : K) : Prop :=
  (lim < |a| ∧ |b| < lim) ∨ (|a| < lim ∧ lim < |b|)

instance (lim a b : K) : Decidable (crossing lim a b) := by
  unfold crossing; infer_instance

/-- `Dynamic.calculate_tho` (core.py lines 391-400): the Python loop
`for i in range(1, len(self.rapidity_results) - 1)` visits the indices
`1, …, n - 2` (`n` the sample count) and overwrites `self.tho` with
`self.t_rap[i]` at every visited `i` where the magnitude crosses
`self.tho_lim` between samples `i - 1` and `i`.  `res` is
`self.rapidity_results`, `t_rap` is `self.t_rap`, and `tho0` the value of
`self.tho` before the call. -/
def calculate_tho (lim : K) (res t_rap : List K) (tho0 : Option K) :
    Option K :=
  (List.range' 1 (res.length - 2)).foldl
    (fun tho i =>
      if crossing lim (res.getD (i - 1) 0) (res.getD i 0) then
        some (t_rap.getD i 0)
      else tho)
    tho0

/-- Python's built-in `round` at the argument `n / 2` for a natural `n`
(`round` rounds halves to the nearest even integer): this is the `index`
of `Dynamic.calculate_stab_amp` (core.py line 406). -/
def pyRoundHalf (n : ℕ) : ℕ :=
  if n % 4 = 3 then (n + 1) / 2 else n / 2

/-- The Python slice `lst[-index:]` for a natural `index`: for
`index = 0` it is the whole list (`lst[-0:] = lst[0:]`), otherwise the
last `index` elements. -/
def pySliceLast (l : List K) (index : ℕ) : List K :=
  if index = 0 then l else l.drop (l.length - index)

/-- `Dynamic.calculate_stab_amp` (core.py lines 402-408):
`index = round(len(res) / 2)`, `second_half = res[-index:]`,
`stab_amp = np.max(second_half) - np.min(second_half)`.  `np.max`/`np.min`
raise on an empty array, so the result is `Option`-valued, `none` standing
for the raised error. -/
def calculate_stab_amp (res : List K) : Option K :=
  match (pySliceLast res (pyRoundHalf res.length)).max?,
        (pySliceLast res (pyRoundHalf res.length)).min? with
  | some hi, some lo => some (hi - lo)
  | _, _ => none

/-- `Dynamic.rapidity` (core.py lines 314-324) applied to a solver result:
stores `np.degrees(sol.y[1])` into `rapidity_results`, then runs
`calculate_tho` (which reads the fresh trajectory, `self.t_rap` and the
previous `self.tho`).  `t_rap` is the array `np.arange(0, tf_rap, t_int)`
built in `__init__`.  No attribute of `sol` other than `y` is read: in
particular `sol.success` is never inspected. -/
def Dynamic.rapidity (ops : MathOps K) (d : Dynamic K) (t_rap : List K)
    (s : DynState K) (sol : IvpSol K) : DynState K :=
  { s with
    rapidity_results := some (sol.y1.map (degrees ops))
    tho := calculate_tho d.tho_lim (sol.y1.map (degrees ops)) t_rap s.tho }

/-- `Dynamic.rapidity_simple` (core.py lines 326-335): stores `sol.y[1]`
unconverted (radians) into `rapidity_results_s`. -/
def Dynamic.rapidity_simple (_d : Dynamic K) (s : DynState K)
    (sol : IvpSol K) : DynState K :=
  { s with rapidity_results_s := some sol.y1 }

/-- `Dynamic.stability` (core.py lines 350-362): stores
`np.degrees(sol.y[1])` into `stability_results`, then runs
`calculate_stab_amp` on it. -/
def Dynamic.stability (ops : MathOps K) (_d : Dynamic K)
    (s : DynState K) (sol : IvpSol K) : DynState K :=
  { s with
    stability_results := some (sol.y1.map (degrees ops))
    stab_amp := calculate_stab_amp (sol.y1.map (degrees ops)) }

/-- `Dynamic.stability_simple` (core.py lines 364-374): stores `sol.y[1]`
unconverted (radians) into `stability_results_s`. -/
def Dynamic.stability_simple (_d : Dynamic K) (s : DynState K)
    (sol : IvpSol K) : DynState K :=
  { s with stability_results_s := some sol.y1 }

/-- `Dynamic.rapidity_exp` (core.py lines 337-348) applied to the data
rows of the spreadsheet (row `r` gives the pair
`(cell(r, 0), cell(r, 1)) = (time, angle)`): the loop appends every time
and angle to two lists and overwrites `self.tho` with the row's time at
every row whose angle magnitude exceeds the literal threshold `5`; at the
end `rapidity_results_exp` receives the pair of lists. -/
def Dynamic.rapidity_exp (rows : List (K × K)) (s : DynState K) :
    DynState K :=
  { s with
    rapidity_results_exp := some (rows.map Prod.fst, rows.map Prod.snd)
    tho := rows.foldl
      (fun tho row => if 5 < |row.2| then some row.1 else tho) s.tho }

/-- A concrete valuation of the abstract math operations over `ℚ`, used
for closed evaluations (`pi` is an arbitrary positive rational: the
statements evaluated with it do not depend on the value chosen). -/
def qOps : MathOps ℚ :=
  ⟨3, fun _ => 1, fun _ => 0, fun _ => 0, fun _ => 0⟩

/-- `Compass()` with all defaults: the GEONAUTE R500 compass. -/
def compR500 : Compass ℚ := {}

/-- `MagneticField()` with all defaults: Lille. -/
def fieldLille : MagneticField ℚ := {}

/-- `Dynamic(Compass(), MagneticField())` with all keyword defaults. -/
def dynDefault : Dynamic ℚ := { comp := compR500, mg_fld := fieldLille }

/-- The compass `TestCompass.compass` of the repository's own test suite
(src/tests/test_core.py lines 6-23, "R500 no disk"): all parameters
non-negative (the magnet offset `x` is signed by design), with
`disk_radius = 0`, `disk_thickness = 0`, `magnet_mom_z = 0` and
`viscosity = 0`. -/
def compNoDisk : Compass ℚ :=
  { name := "R500 no disk", needle_length := 32 / 1000,
    needle_width := 8 / 1000, needle_thickness := 25 / 100000,
    needle_disk_density := 1200, disk_radius := 0, disk_thickness := 0,
    mag_rem := 13 / 10, V := 1 / 100000, m := 1 / 10000,
    magnet_mom_z := 0, x := -1 / 2, rho := 700, viscosity := 0,
    z_h := 8 / 1000, z_b := 8 / 1000 }

/-! ## Helper lemmas about the update-on-condition fold shared by
`calculate_tho` and `rapidity_exp`. -/

/-- A fold that overwrites its accumulator at every element satisfying `p`
returns the accumulator unchanged when no element satisfies `p`. -/
theorem foldl_if_none {α β : Type} (p : α → Prop) [DecidablePred p]
    (f : α → Option β) (l : List α) (a : Option β)
    (h : ∀ x ∈ l, ¬ p x) :
    l.foldl (fun acc x => if p x then f x else acc) a = a := by
  induction l generalizing a with
  | nil => rfl
  | cons x xs ih =>
    rw [List.foldl_cons, if_neg (h x (List.mem_cons_self x xs))]
    exact ih a fun y hy => h y (List.mem_cons_of_mem x hy)

/-- A fold that overwrites its accumulator at every element satisfying `p`
returns the value of the last such element. -/
theorem foldl_if_last {α β : Type} (p : α → Prop) [DecidablePred p]
    (f : α → Option β) (l1 l2 : List α) (x : α) (a : Option β)
    (hx : p x) (h : ∀ y ∈ l2, ¬ p y) :
    (l1 ++ x :: l2).foldl (fun acc y => if p y then f y else acc) a = f x := by
  rw [List.foldl_append, List.foldl_cons, if_pos hx]
  exact foldl_if_none p f l2 (f x) h

/-- The loop of `calculate_tho` over the index range `1, …, k` ends at
`some (t_rap[m])` when `m` is in range, a crossing happens at `m` (between
samples `m - 1` and `m`), and none happens at any later in-range index. -/
theorem range'_foldl_last (lim : K) (res t_rap : List K) (tho0 : Option K)
    (m k : ℕ) (h1 : 1 ≤ m) (hmk : m ≤ k)
    (hc : crossing lim (res.getD (m - 1) 0) (res.getD m 0))
    (hlast : ∀ j, m < j → j ≤ k →
      ¬ crossing lim (res.getD (j - 1) 0) (res.getD j 0)) :
    (List.range' 1 k).foldl
      (fun tho i =>
        if crossing lim (res.getD (i - 1) 0) (res.getD i 0) then
          some (t_rap.getD i 0)
        else tho)
      tho0 = some (t_rap.getD m 0) := by
  induction k, hmk using Nat.le_induction with
  | base =>
    obtain ⟨n, rfl⟩ : ∃ n, m = n + 1 := ⟨m - 1, by omega⟩
    rw [List.range'_concat, List.foldl_append, List.foldl_cons]
    have he : 1 + 1 * n = n + 1 := by omega
    rw [he, if_pos hc]
    rfl
  | succ k hk ih =>
    rw [List.range'_concat, List.foldl_append, List.foldl_cons]
    have he : 1 + 1 * k = k + 1 := by omega
    rw [he, if_neg (hlast (k + 1) (by omega) (by omega))]
    exact ih fun j hj hjk => hlast j hj (by omega)

/-- For a sample count of at least two, Python's `round(n / 2)` is at
least one. -/
theorem pyRoundHalf_pos {n : ℕ} (h : 2 ≤ n) : 1 ≤ pyRoundHalf n := by
  unfold pyRoundHalf; split <;> omega

/-- Python's `round(n / 2)` never exceeds `n`. -/
theorem pyRoundHalf_le (n : ℕ) : pyRoundHalf n ≤ n := by
  unfold pyRoundHalf; split <;> omega

/-! ## The claims -/

/-- C1.  `calculate_tho` records as `tho` the time sample of the last
index at which the angle magnitude of the rapidity trajectory crosses the
threshold `lim` between consecutive samples, the indices scanned by the
loop being `1, …, n - 2`: if a crossing happens between samples `m - 1`
and `m` and at no later scanned index, the recorded value is
`t_rap[m]`.  In particular, for the trajectory `[10, 6, 4, -6, 3]` with
threshold `5`, the crossing between samples 2 and 3 (`4 → -6`) is the last
one the scan identifies (the loop stops before the pair `(-6, 3)`), and
`tho` is the time of sample 3, here `0.03` for the default
`t_int = 0.01`. -/
theorem c1_tho_last_crossing (lim : K) (res t_rap : List K)
    (tho0 : Option K) (m : ℕ) (h1 : 1 ≤ m) (h2 : m + 2 ≤ res.length)
    (hc : crossing lim (res.getD (m - 1) 0) (res.getD m 0))
    (hlast : ∀ j, m < j → j + 2 ≤ res.length →
      ¬ crossing lim (res.getD (j - 1) 0) (res.getD j 0)) :
    calculate_tho lim res t_rap tho0 = some (t_rap.getD m 0) ∧
    crossing (5 : ℚ) 4 (-6) ∧
    calculate_tho (5 : ℚ) [10, 6, 4, -6, 3]
      [0, 1 / 100, 1 / 50, 3 / 100, 1 / 25] none = some (3 / 100) := by
  refine ⟨?_, by norm_num [crossing], ?_⟩
  · unfold calculate_tho
    exact range'_foldl_last lim res t_rap tho0 m (res.length - 2) h1
      (by omega) hc fun j hj hjk => hlast j hj (by omega)
  · norm_num [calculate_tho, crossing, List.range']

/-- Witness for C1: the hypotheses hold at the trajectory
`[10, 6, 4, -6, 3]`, threshold `5`, index `m = 3`, and the theorem
evaluates the scan there. -/
theorem c1_witness :
    ((1 : ℕ) ≤ 3 ∧ 3 + 2 ≤ ([10, 6, 4, -6, 3] : List ℚ).length ∧
      crossing (5 : ℚ) (([10, 6, 4, -6, 3] : List ℚ).getD 2 0)
        (([10, 6, 4, -6, 3] : List ℚ).getD 3 0)) ∧
    calculate_tho (5 : ℚ) [10, 6, 4, -6, 3]
      [0, 1 / 100, 1 / 50, 3 / 100, 1 / 25] none = some (3 / 100) := by
  refine ⟨⟨by norm_num, by norm_num, by norm_num [crossing]⟩, ?_⟩
  exact (c1_tho_last_crossing (5 : ℚ) [10, 6, 4, -6, 3]
    [0, 1 / 100, 1 / 50, 3 / 100, 1 / 25] none 3 (by norm_num) (by norm_num)
    (by norm_num [crossing])
    (fun j hj hj2 => absurd hj (by simp at hj2; omega))).1

/-- C2.  `calculate_stab_amp` restricts the stability trajectory to its
last `round(n / 2)` samples (`n` the sample count, Python rounding) and
sets `stab_amp` to max minus min over that window; for the trajectory
`[1, 2, 3, 4, 5, 6, 7, 8]` the window is the last `round(8/2) = 4`
samples `[5, 6, 7, 8]` and the amplitude is `3`.  (For `n ≤ 1` the
claimed window would be empty; the hypothesis `2 ≤ n` keeps the statement
within the claim's scope.) -/
theorem c2_stab_amp_window (res : List K) (h : 2 ≤ res.length) :
    (∃ hi lo,
      (res.drop (res.length - pyRoundHalf res.length)).max? = some hi ∧
      (res.drop (res.length - pyRoundHalf res.length)).min? = some lo ∧
      calculate_stab_amp res = some (hi - lo)) ∧
    pySliceLast ([1, 2, 3, 4, 5, 6, 7, 8] : List ℚ) (pyRoundHalf 8) =
      [5, 6, 7, 8] ∧
    calculate_stab_amp ([1, 2, 3, 4, 5, 6, 7, 8] : List ℚ) = some 3 := by
  refine ⟨?_, by norm_num [pySliceLast, pyRoundHalf],
    by norm_num [calculate_stab_amp, pySliceLast, pyRoundHalf,
      List.max?, List.min?]⟩
  have hpos := pyRoundHalf_pos h
  have hle := pyRoundHalf_le res.length
  have hslice : pySliceLast res (pyRoundHalf res.length) =
      res.drop (res.length - pyRoundHalf res.length) := by
    unfold pySliceLast
    rw [if_neg (by omega)]
  have hlen : 0 < (res.drop (res.length - pyRoundHalf res.length)).length := by
    rw [List.length_drop]; omega
  obtain ⟨hi, hhi⟩ : ∃ hi,
      (res.drop (res.length - pyRoundHalf res.length)).max? = some hi := by
    cases hmax : (res.drop (res.length - pyRoundHalf res.length)).max? with
    | none =>
      rw [List.max?_eq_none_iff] at hmax
      rw [hmax] at hlen
      simp at hlen
    | some hi => exact ⟨hi, rfl⟩
  obtain ⟨lo, hlo⟩ : ∃ lo,
      (res.drop (res.length - pyRoundHalf res.length)).min? = some lo := by
    cases hmin : (res.drop (res.length - pyRoundHalf res.length)).min? with
    | none =>
      rw [List.min?_eq_none_iff] at hmin
      rw [hmin] at hlen
      simp at hlen
    | some lo => exact ⟨lo, rfl⟩
  refine ⟨hi, lo, hhi, hlo, ?_⟩
  unfold calculate_stab_amp
  rw [hslice, hhi, hlo]

/-- Witness for C2: the theorem applied to the trajectory
`[1, 2, 3, 4, 5, 6, 7, 8]`. -/
theorem c2_witness :
    2 ≤ ([1, 2, 3, 4, 5, 6, 7, 8] : List ℚ).length ∧
    ∃ hi lo,
      (([1, 2, 3, 4, 5, 6, 7, 8] : List ℚ).drop
        (([1, 2, 3, 4, 5, 6, 7, 8] : List ℚ).length -
          pyRoundHalf ([1, 2, 3, 4, 5, 6, 7, 8] : List ℚ).length)).max? =
        some hi ∧
      (([1, 2, 3, 4, 5, 6, 7, 8] : List ℚ).drop
        (([1, 2, 3, 4, 5, 6, 7, 8] : List ℚ).length -
          pyRoundHalf ([1, 2, 3, 4, 5, 6, 7, 8] : List ℚ).length)).min? =
        some lo ∧
      calculate_stab_amp ([1, 2, 3, 4, 5, 6, 7, 8] : List ℚ) =
        some (hi - lo) :=
  ⟨by norm_num,
    (c2_stab_amp_window ([1, 2, 3, 4, 5, 6, 7, 8] : List ℚ) (by norm_num)).1⟩

/-- C3.  For every compass/field pair and fit coefficients, the three ODE
coefficients equal the stated closed forms: the magnetic term is
`-k_m * mag_rem * V * field_intensity * cos(inclination) / (mu0 * I)`,
the viscous term is `-k_v * viscous_coefficient / I`, and the excitation
term is `mass * offset * Y * (pi*f/30)^2 / I`, with `I` the moment of
inertia, `mu0` the constant `MAG_PER = 1.25664e-6`, and the coefficients
`k_m = exp_coef_mg`, `k_v = exp_coef_visc` defaulting to `1` in
`Dynamic.__init__`. -/
theorem c3_ode_coefficients (ops : MathOps K) (d : Dynamic K)
    (c : Compass K) (fld : MagneticField K) :
    d.mg_trm ops =
      -(d.exp_coef_mg * d.comp.mag_rem * d.comp.V * d.mg_fld.int *
        ops.cos (d.mg_fld.i ops)) / (MAG_PER * d.comp.mom_z ops.pi) ∧
    d.visc_trm ops =
      -(d.exp_coef_visc * d.comp.visc_coef ops.pi) / d.comp.mom_z ops.pi ∧
    d.ext_trm ops =
      d.comp.m * d.comp.x * d.Y * (ops.pi * d.f / 30) ^ 2 /
        d.comp.mom_z ops.pi ∧
    ({ comp := c, mg_fld := fld } : Dynamic K).exp_coef_mg = 1 ∧
    ({ comp := c, mg_fld := fld } : Dynamic K).exp_coef_visc = 1 ∧
    (MAG_PER : ℚ) = 1.25664e-6 := by
  refine ⟨?_, ?_, rfl, rfl, rfl, by norm_num [MAG_PER]⟩
  · unfold Dynamic.mg_trm
    ring
  · unfold Dynamic.visc_trm
    ring

/-- C4 counterexample.  A solver result whose success flag is down
(`scipy` reports failure through `sol.status`/`sol.success`, which the
code never reads): `Dynamic.rapidity` still stores the returned partial
angle row, converted to degrees, into `rapidity_results`, and returns an
ordinary state — no failure value of any kind. -/
theorem c4_failed_solve_stored_silently :
    (⟨false, [0], [0], [157 / 100]⟩ : IvpSol ℚ).success = false ∧
    (dynDefault.rapidity qOps [0] DynState.start
      ⟨false, [0], [0], [157 / 100]⟩).rapidity_results =
      some [471 / 5] := by
  refine ⟨rfl, ?_⟩
  show some ([(157 : ℚ) / 100].map (degrees qOps)) = some [471 / 5]
  norm_num [degrees, qOps]

/-- C4 as amended.  Neither integration run inspects the solver result's
success flag: the state each produces is literally the same whatever the
flag says, the returned angle row is stored unconditionally (converted to
degrees), and the run's type has no failure channel — no `NumericalFailure`
exists anywhere in the code. -/
theorem c4_solver_status_ignored (ops : MathOps K) (d : Dynamic K)
    (t_rap : List K) (s : DynState K) (sol : IvpSol K) (b : Bool) :
    d.rapidity ops t_rap s sol =
      d.rapidity ops t_rap s ⟨b, sol.t, sol.y0, sol.y1⟩ ∧
    d.stability ops s sol = d.stability ops s ⟨b, sol.t, sol.y0, sol.y1⟩ ∧
    (d.rapidity ops t_rap s sol).rapidity_results =
      some (sol.y1.map (degrees ops)) ∧
    (d.stability ops s sol).stability_results =
      some (sol.y1.map (degrees ops)) :=
  ⟨rfl, rfl, rfl, rfl⟩

/-- C5.  `Dynamic.amplification` and `Dynamic.phase` both read
`self.comp.visc`, an attribute `Compass` never defines, so for every
engine both properties fail (`AttributeError` in Python, `none` in this
embedding) instead of evaluating the claimed formulas with the derived
viscous drag coefficient. -/
theorem c5_amplification_phase_error (ops : MathOps K) (d : Dynamic K) :
    d.amplification ops = none ∧ d.phase ops = none ∧ d.comp.visc = none :=
  ⟨rfl, rfl, rfl⟩

/-- C7 counterexample.  A compass with negative mass `m = -1` (all other
parameters the R500 defaults) is accepted: construction returns the
stored object, not an `InvalidParameterError` — no validation happens. -/
theorem c7_negative_mass_accepted :
    compassInit "R500" ((32 : ℚ) / 1000) (8 / 1000) (25 / 100000) 1200
      (115 / 10000) (1 / 10000) (13 / 10) (6 / 100000000) (-1)
      (51 / 10000000000) (-5 / 10000) 700 (108 / 100) (4 / 1000)
      (4 / 1000) =
    .ok ⟨"R500", 32 / 1000, 8 / 1000, 25 / 100000, 1200, 115 / 10000,
      1 / 10000, 13 / 10, 6 / 100000000, -1, 51 / 10000000000, -5 / 10000,
      700, 108 / 100, 4 / 1000, 4 / 1000⟩ ∧
    ((-1 : ℚ) < 0) :=
  ⟨rfl, by norm_num⟩

/-- C7 as amended.  `Compass.__init__` performs no validation at all:
for every parameter set — negative mass and parameters that make the
moment of inertia zero included — construction succeeds and stores the
arguments verbatim; no `InvalidParameterError` exists in the code and no
derived-property access checks its inputs. -/
theorem c7_init_accepts_everything (name : String)
    (needle_length needle_width needle_thickness needle_disk_density
      disk_radius disk_thickness mag_rem V m magnet_mom_z x rho viscosity
      z_h z_b : K) :
    compassInit name needle_length needle_width needle_thickness
      needle_disk_density disk_radius disk_thickness mag_rem V m
      magnet_mom_z x rho viscosity z_h z_b =
    .ok ⟨name, needle_length, needle_width, needle_thickness,
      needle_disk_density, disk_radius, disk_thickness, mag_rem, V, m,
      magnet_mom_z, x, rho, viscosity, z_h, z_b⟩ :=
  rfl

/-- C6.  The stored trajectory units are asymmetric: the nonlinear
`rapidity` and `stability` runs store the angle row converted to degrees
(`np.degrees`, i.e. each sample multiplied by `180 / pi`), while the
small-angle `rapidity_simple` and `stability_simple` runs store the angle
row unconverted, in radians. -/
theorem c6_unit_asymmetry (ops : MathOps K) (d : Dynamic K)
    (t_rap : List K) (s : DynState K) (sol : IvpSol K) :
    (d.rapidity ops t_rap s sol).rapidity_results =
      some (sol.y1.map (degrees ops)) ∧
    (d.rapidity_simple s sol).rapidity_results_s = some sol.y1 ∧
    (d.stability ops s sol).stability_results =
      some (sol.y1.map (degrees ops)) ∧
    (d.stability_simple s sol).stability_results_s = some sol.y1 ∧
    ∀ a : K, degrees ops a = a * 180 / ops.pi :=
  ⟨rfl, rfl, rfl, rfl, fun _ => rfl⟩

/-- C8.  For a rapidity run whose stored trajectory never crosses the
settling threshold between any pair of consecutive samples, starting from
the state `Dynamic.__init__` leaves behind (`tho = None`), the settling
time stays `none` — absent, not a default `0`; the run still returns an
ordinary state, so the outcome is a normal result, not an error. -/
theorem c8_tho_absent (ops : MathOps K) (d : Dynamic K) (t_rap : List K)
    (s : DynState K) (sol : IvpSol K) (hs : s.tho = none)
    (h : ∀ i, i < (sol.y1.map (degrees ops)).length → 1 ≤ i →
      ¬ crossing d.tho_lim ((sol.y1.map (degrees ops)).getD (i - 1) 0)
        ((sol.y1.map (degrees ops)).getD i 0)) :
    (d.rapidity ops t_rap s sol).tho = none := by
  show calculate_tho d.tho_lim (sol.y1.map (degrees ops)) t_rap s.tho = none
  rw [hs]
  unfold calculate_tho
  apply foldl_if_none
  intro i hi
  rw [List.mem_range'_1] at hi
  exact h i (by omega) (by omega)

/-- Witness for C8: a one-sample trajectory (no pair of consecutive
samples exists, so none crosses), run from the freshly initialised
state. -/
theorem c8_witness :
    (DynState.start : DynState ℚ).tho = none ∧
    (dynDefault.rapidity qOps [0] DynState.start
      ⟨true, [0], [0], [0]⟩).tho = none := by
  refine ⟨rfl, c8_tho_absent qOps dynDefault [0] DynState.start
    ⟨true, [0], [0], [0]⟩ rfl ?_⟩
  intro i hi h1
  simp only [List.length_map, List.length_cons, List.length_nil] at hi
  exact absurd h1 (by omega)

/-- C9 counterexample.  The compass the repository's own test suite
builds ("R500 no disk", every geometric and physical quantity
non-negative, the signed offset apart) has `viscosity = 0`, and its
derived viscous drag coefficient is exactly `0` — not strictly positive.
(The value of `pi` is irrelevant: the whole product carries the factor
`viscosity = 0`.) -/
theorem c9_test_compass_zero_visc_coef :
    compNoDisk.visc_coef (314159 / 100000) = 0 ∧
    ¬ (0 < compNoDisk.visc_coef (314159 / 100000)) := by
  constructor
  · norm_num [Compass.visc_coef, compNoDisk]
  · norm_num [Compass.visc_coef, compNoDisk]

/-- C9 as amended.  The derived moment of inertia and viscous drag
coefficient are strictly positive under the conditions the formulas
actually need: positive `pi`, strictly positive needle dimensions and
density, non-negative disk and magnet parameters, strictly positive
viscosity and gap heights, and a disk radius of at most half the needle
length.  (Merely non-negative inputs do not suffice: zero viscosity — as
in the repository's own test compass — gives a zero coefficient.) -/
theorem c9_positive_mom_z_visc_coef (pi_ : K) (c : Compass K)
    (hpi : 0 < pi_)
    (hL : 0 < c.needle_length) (hW : 0 < c.needle_width)
    (hT : 0 < c.needle_thickness) (hD : 0 < c.needle_disk_density)
    (hr : 0 ≤ c.disk_radius) (ht : 0 ≤ c.disk_thickness)
    (hmz : 0 ≤ c.magnet_mom_z) (hm : 0 ≤ c.m)
    (hv : 0 < c.viscosity) (hzh : 0 < c.z_h) (hzb : 0 < c.z_b)
    (hrL : c.disk_radius ≤ c.needle_length / 2) :
    0 < c.mom_z pi_ ∧ 0 < c.visc_coef pi_ := by
  constructor
  · unfold Compass.mom_z
    have h1 : 0 ≤ pi_ * c.disk_radius ^ 4 * c.disk_thickness *
        c.needle_disk_density / 2 := by positivity
    have h2 : 0 < c.needle_length * c.needle_width * c.needle_thickness *
        c.needle_disk_density *
        (c.needle_length ^ 2 + c.needle_width ^ 2) / 12 := by positivity
    have h3 : 0 ≤ c.m * c.x ^ 2 := by positivity
    dsimp only
    linarith
  · unfold Compass.visc_coef
    have hcube : c.disk_radius ^ 3 ≤ c.needle_length ^ 3 / 8 := by
      have ha : c.disk_radius ^ 3 ≤ (c.needle_length / 2) ^ 3 :=
        pow_le_pow_left₀ hr hrL 3
      have hb : (c.needle_length / 2) ^ 3 = c.needle_length ^ 3 / 8 := by
        ring
      linarith
    have hgb : 0 ≤ (c.needle_length ^ 3 / 8 - c.disk_radius ^ 3) *
        c.needle_width / 3 :=
      div_nonneg (mul_nonneg (by linarith) hW.le) (by norm_num)
    have hgc : 0 ≤ (c.needle_length / 2 - c.disk_radius) *
        c.needle_width ^ 3 / 12 :=
      div_nonneg (mul_nonneg (by linarith) (by positivity)) (by norm_num)
    have hfac : 0 < pi_ * c.disk_radius ^ 4 / 2 +
        (c.needle_length ^ 3 / 8 - c.disk_radius ^ 3) * c.needle_width / 3 +
        (c.needle_length / 2 - c.disk_radius) * c.needle_width ^ 3 / 12 := by
      rcases eq_or_lt_of_le hr with h0 | h0
      · have hb : 0 < (c.needle_length ^ 3 / 8 - c.disk_radius ^ 3) *
            c.needle_width / 3 := by
          rw [← h0]
          have hz3 : (0 : K) ^ 3 = 0 := by norm_num
          rw [hz3, sub_zero]
          positivity
        have hga : 0 ≤ pi_ * c.disk_radius ^ 4 / 2 := by positivity
        linarith
      · have hga : 0 < pi_ * c.disk_radius ^ 4 / 2 := by positivity
        linarith
    have hz : 0 < 1 / c.z_h + 1 / c.z_b := by positivity
    exact mul_pos (mul_pos hv hz) hfac

/-- Witness for C9: the default R500 compass with `pi` taken as `3`
satisfies every hypothesis and both derived quantities come out strictly
positive. -/
theorem c9_witness :
    ((0 : ℚ) < 3 ∧ 0 < compR500.needle_length ∧ 0 < compR500.needle_width ∧
      0 < compR500.needle_thickness ∧ 0 < compR500.needle_disk_density ∧
      0 ≤ compR500.disk_radius ∧ 0 ≤ compR500.disk_thickness ∧
      0 ≤ compR500.magnet_mom_z ∧ 0 ≤ compR500.m ∧
      0 < compR500.viscosity ∧ 0 < compR500.z_h ∧ 0 < compR500.z_b ∧
      compR500.disk_radius ≤ compR500.needle_length / 2) ∧
    (0 < compR500.mom_z 3 ∧ 0 < compR500.visc_coef 3) := by
  refine ⟨⟨by norm_num, by norm_num [compR500], by norm_num [compR500],
    by norm_num [compR500], by norm_num [compR500], by norm_num [compR500],
    by norm_num [compR500], by norm_num [compR500], by norm_num [compR500],
    by norm_num [compR500], by norm_num [compR500], by norm_num [compR500],
    by norm_num [compR500]⟩, ?_⟩
  exact c9_positive_mom_z_visc_coef 3 compR500 (by norm_num)
    (by norm_num [compR500]) (by norm_num [compR500])
    (by norm_num [compR500]) (by norm_num [compR500])
    (by norm_num [compR500]) (by norm_num [compR500])
    (by norm_num [compR500]) (by norm_num [compR500])
    (by norm_num [compR500]) (by norm_num [compR500])
    (by norm_num [compR500]) (by norm_num [compR500])

/-- C10 counterexample.  For the external series
`[(0.1, 10), (0.2, 2), (0.3, 7)]` the angle magnitude first exceeds the
threshold at time `0.1` (`|10| > 5`), yet the ingestion reports
`tho = 0.3` — the time of the last exceedance, not the first. -/
theorem c10_first_exceedance_not_reported :
    (Dynamic.rapidity_exp [((1 : ℚ) / 10, 10), (2 / 10, 2), (3 / 10, 7)]
      DynState.start).tho = some (3 / 10) ∧
    5 < |(10 : ℚ)| ∧ ((3 : ℚ) / 10 ≠ 1 / 10) := by
  refine ⟨?_, by norm_num, by norm_num⟩
  norm_num [Dynamic.rapidity_exp, DynState.start]

/-- C10 as amended.  `rapidity_exp` reports, as a side effect in `tho`,
the time of the row at which the external angle magnitude *last* exceeds
the hard-coded threshold `5` (every exceeding row overwrites the value),
and stores the two columns as `rapidity_results_exp`. -/
theorem c10_tho_last_exceedance (rows1 rows2 : List (K × K))
    (row : K × K) (s : DynState K)
    (hx : 5 < |row.2|) (h : ∀ r ∈ rows2, ¬ (5 < |r.2|)) :
    (Dynamic.rapidity_exp (rows1 ++ row :: rows2) s).tho = some row.1 ∧
    (Dynamic.rapidity_exp (rows1 ++ row :: rows2) s).rapidity_results_exp =
      some ((rows1 ++ row :: rows2).map Prod.fst,
        (rows1 ++ row :: rows2).map Prod.snd) := by
  refine ⟨?_, rfl⟩
  exact foldl_if_last (fun r => 5 < |r.2|) (fun r => some r.1)
    rows1 rows2 row s.tho hx h

/-- Witness for C10: the series `[(0.1, 10), (0.3, 7)]`, whose last
exceedance is its last row. -/
theorem c10_witness :
    (5 < |(7 : ℚ)|) ∧
    (Dynamic.rapidity_exp [((1 : ℚ) / 10, 10), (3 / 10, 7)]
      DynState.start).tho = some (3 / 10) := by
  refine ⟨by norm_num, ?_⟩
  exact (c10_tho_last_exceedance [((1 : ℚ) / 10, 10)] [] (3 / 10, 7)
    DynState.start (by norm_num) (by simp)).1

end CompassSim
